import Mathlib

/-!
Shallow embedding of `src/vis.py` (detection visualization and XML export)
together with theorems settling the specification claims about it.

The Python module renders detections and writes one XML document per image.
Pure data flow (thresholding, paint order, identity mapping, row building,
file-name construction, error behaviour of the export path) is embedded as
executable Lean functions; drawing primitives (matplotlib / cv2 calls) have
no data flow into the export path and are represented only by which
detections reach them.
-/

namespace VisPy

/-- One detection row of the `boxes` array: `boxes[i] = [x0, y0, x1, y1, score]`.
Coordinates and scores are modelled as rationals. -/
structure Box where
  x0 : ℚ
  y0 : ℚ
  x1 : ℚ
  y1 : ℚ
  score : ℚ
deriving DecidableEq

instance : Inhabited Box := ⟨⟨0, 0, 0, 0, 0⟩⟩

/-- Box area as computed at `vis.py:227` and `vis.py:457`:
`areas = (boxes[:, 2] - boxes[:, 0]) * (boxes[:, 3] - boxes[:, 1])`. -/
def boxArea (b : Box) : ℚ := (b.x1 - b.x0) * (b.y1 - b.y0)

/-- Area of the `i`-th box of the array (out-of-range reads the default box;
indices used below always come from `List.range`). -/
def areaAt (bs : List Box) (i : Nat) : ℚ := boxArea (bs.getD i default)

/-- Paint order, `vis.py:228` and `vis.py:458`: `sorted_inds = np.argsort(-areas)`,
i.e. detection indices by non-increasing box area.  `np.argsort` with its
default `kind='quicksort'` guarantees only a permutation that sorts the key —
the relative order of equal keys is unspecified (the introsort it runs is not
stable) — so the call is embedded in two parts: this executable function picks
one concrete output of the documented contract (an insertion sort; every
property proved about it below is independent of the tie order except where it
is stated against the contract `IsArgsortDescArea` instead). -/
def argsortDescArea (bs : List Box) : List Nat :=
  List.insertionSort (fun i j => areaAt bs j ≤ areaAt bs i) (List.range bs.length)

/-- The documented contract of `np.argsort(-areas)` (`vis.py:228,458`) with the
default `kind='quicksort'`: the result is some permutation of the detection
indices ordered by non-increasing area.  Which permutation results when areas
tie is unspecified — numpy documents the default sort as not stable — so any
list satisfying this predicate is a possible paint order. -/
def IsArgsortDescArea (bs : List Box) (l : List Nat) : Prop :=
  l.Perm (List.range bs.length) ∧
    List.Sorted (fun i j => areaAt bs j ≤ areaAt bs i) l

/-- The detection indices that survive the per-detection confidence filter, in
paint order.  Embeds the loop head shared by `vis_one_image_opencv`
(`vis.py:230-234`) and `vis_one_image` (`vis.py:468-472`):
`for i in sorted_inds: ... if score < thresh: continue`. -/
def survivors (bs : List Box) (thresh : ℚ) : List Nat :=
  (argsortDescArea bs).filter (fun i => !decide ((bs.getD i default).score < thresh))

/-- Fixed label vocabulary, `vis.py:262`:
`id_list = ['id12', 'id13', 'id14', 'id15', 'id18', 'id19', 'id26']`. -/
def id_list : List String := ["id12", "id13", "id14", "id15", "id18", "id19", "id26"]

/-- The mapping dict of `vis.py:263`: `index = {i:k for i,k in enumerate(id_list, 1)}`,
as an association list keyed `1..7`. -/
def indexDict : List (Nat × String) :=
  (List.range id_list.length).map (fun i => (i + 1, id_list.getD i ""))

/-- Python `index.get i`: `some` entry for keys `1..7`, silently `none` otherwise. -/
def indexDictGet (i : Nat) : Option String := indexDict.lookup i

/-- Embeds `id_map_func` (`vis.py:258-267`):
`lb_list = list(map(index.get, rd_id_list))`.  The intermediate list
comprehension at `vis.py:264` is dead code (its value is discarded), and no
exception is ever raised: unmapped ids turn into `None` entries. -/
def id_map_func (rd_id_list : List Nat) : List (Option String) :=
  rd_id_list.map indexDictGet

/-- Exceptions the export helpers can raise. -/
inductive TxtErr where
  /-- `IndexError` from `txt_label_list[i]` at `vis.py:273` when the label list
  is shorter than the box array. -/
  | indexError : TxtErr
  /-- `UnboundLocalError` from `return temp_txt_total` at `vis.py:285` when the
  loop body never ran (`txt_boxes.shape[0] == 0`). -/
  | unboundLocal : TxtErr
deriving DecidableEq

/-- One row of the array built by `txt_file_func`:
`[image_name, label, xmin, ymin, xmax, ymax]`.  The label slot is `Option`
because `id_map_func` can emit `None`. -/
structure XmlRow where
  fileName : String
  name : Option String
  xmin : ℚ
  ymin : ℚ
  xmax : ℚ
  ymax : ℚ
deriving DecidableEq

instance : Inhabited XmlRow := ⟨⟨"", none, 0, 0, 0, 0⟩⟩

/-- The rows `txt_file_func` builds when it does not raise: row `i` is
`[txt_image, txt_label_list[i]] + txt_boxes[i][:4]` (`vis.py:270-283`). -/
def txt_rows (txt_image : String) (txt_label_list : List (Option String))
    (txt_boxes : List Box) : List XmlRow :=
  (List.range txt_boxes.length).map (fun i =>
    ⟨txt_image, txt_label_list.getD i none,
      (txt_boxes.getD i default).x0, (txt_boxes.getD i default).y0,
      (txt_boxes.getD i default).x1, (txt_boxes.getD i default).y1⟩)

/-- Embeds `txt_file_func` (`vis.py:269-285`).  The Python loop
`for i in range(txt_boxes.shape[0])` raises `IndexError` at `txt_label_list[i]`
as soon as `i` reaches `len(txt_label_list)`, i.e. exactly when the label list
is shorter than the box array; with zero boxes the loop never runs and the
final `return temp_txt_total` raises `UnboundLocalError`. -/
def txt_file_func (txt_image : String) (txt_label_list : List (Option String))
    (txt_boxes : List Box) : Except TxtErr (List XmlRow) :=
  if txt_boxes.length = 0 then Except.error TxtErr.unboundLocal
  else if txt_boxes.length ≤ txt_label_list.length then
    Except.ok (txt_rows txt_image txt_label_list txt_boxes)
  else Except.error TxtErr.indexError

/-- Python `s[:-4]` (`vis.py:410`): drop the last four characters (empty result
when the string has at most four characters). -/
def pyDropLast4 (s : String) : String :=
  String.mk (s.data.take (s.data.length - 4))

/-- The XML file path built at `vis.py:410`:
`temp_xmlfile = xml_path + '/' + txt_file_name[:-4] + '.xml'`. -/
def temp_xmlfile (xmlPath fileName : String) : String :=
  xmlPath ++ "/" ++ pyDropLast4 fileName ++ ".xml"

/-- Exceptions `xml_create_func` can raise before writing anything. -/
inductive XmlErr where
  /-- `TypeError` from `doc.createTextNode` (`vis.py:366,390-405`): when any
  label is `None`, `np.array`/`np.vstack` in `txt_file_func` keeps the rows at
  dtype `object`, so the name slot is `None` and the coordinate slots are
  floats, and `createTextNode` rejects every non-`str` argument. -/
  | typeError : XmlErr
  /-- `NameError` at `vis.py:410`: with zero rows the loop never binds
  `txt_file_name`. -/
  | nameError : XmlErr
deriving DecidableEq

/-- Embeds the data flow of `xml_create_func` (`vis.py:287-418`): one `object`
element is created per row of `temp_text` (`vis.py:350-406`), and on success the
document is written to `temp_xmlfile` (`vis.py:410-415`).  All text nodes are
created before the file is opened, so an exception leaves no file behind.
When every label is a string, numpy has stored the rows as a unicode array and
each coordinate is serialized as its decimal string; the rows are returned
as the document's object entries. -/
def xml_create_func (xmlPath : String) (rows : List XmlRow) :
    Except XmlErr (List XmlRow × String) :=
  if rows.length = 0 then Except.error XmlErr.nameError
  else if rows.any (fun r => r.name.isNone) then Except.error XmlErr.typeError
  else Except.ok (rows, temp_xmlfile xmlPath (rows.getLastD default).fileName)

/-- Python `ch_list = s.split(sep_char)` on the character list of a string. -/
def splitOnChar (c : Char) (l : List Char) : List (List Char) :=
  List.foldr (fun ch acc =>
    match acc with
    | [] => [[ch]]
    | a :: as => if ch = c then [] :: (a :: as) else (ch :: a) :: as) [[]] l

/-- `image_name = im_name.split('/')[-1]` (`vis.py:575`). -/
def imageNameOf (im_name : String) : String :=
  String.mk ((splitOnChar '/' im_name.data).getLastD [])

/-- The hard-coded XML output directory of `vis.py:463`:
`xml_path = r'/data/yang/detectron/output/xml_files'`. -/
def xml_path : String := "/data/yang/detectron/output/xml_files"

/-- The early-exit test of `vis.py:432` (and `vis.py:218`):
`boxes is None or boxes.shape[0] == 0 or max(boxes[:, 4]) < thresh`
(for a nonempty array, `max(scores) < thresh` iff every score is below). -/
def noBoxPasses (boxesOpt : Option (List Box)) (thresh : ℚ) : Bool :=
  match boxesOpt with
  | none => true
  | some bs => bs.isEmpty || bs.all (fun b => decide (b.score < thresh))

/-- Observable outcome of one `vis_one_image` call. -/
inductive VisOutcome where
  /-- the `return` at `vis.py:433`: no figure saved, no XML written. -/
  | earlyReturn : VisOutcome
  /-- `IndexError` escaping from `txt_file_func`: no XML, no saved image. -/
  | raisedIndexError : VisOutcome
  /-- `UnboundLocalError` escaping from `txt_file_func`: no XML, no saved image. -/
  | raisedUnboundLocal : VisOutcome
  /-- `TypeError` escaping from `xml_create_func`: no XML, no saved image. -/
  | raisedTypeError : VisOutcome
  /-- normal completion: `rendered` are the detection indices drawn (in paint
  order), `objects` the XML object entries, then the XML file and the figure
  file are written. -/
  | saved (rendered : List Nat) (objects : List XmlRow)
      (xmlFile imageFile : String) : VisOutcome
deriving DecidableEq

/-- Embeds the export-relevant data flow of `vis_one_image` (`vis.py:420-587`)
on already-flat inputs (`boxesOpt = none` models `boxes is None`).
In paint order, every surviving detection gets a box patch (`vis.py:478-483`)
and its row is stacked onto `temp_boxes` (`vis.py:474`); its class id is
appended to `temp_classify_id_list` only inside the `show_class` branch
(`vis.py:485-486`).  After the loop the sentinel row is deleted (`vis.py:570`),
labels are mapped (`vis.py:576`), `txt_file_func` builds the rows
(`vis.py:577`), `xml_create_func` writes the XML (`vis.py:582`) and finally the
figure is saved under `output_dir` (`vis.py:585-586`).  Mask and keypoint
drawing (`vis.py:496-568`) touches no exported data and is embedded separately
(`mask_draws`, `limb_drawn`). -/
def vis_one_image (im_name output_dir : String) (boxesOpt : Option (List Box))
    (classes : List Nat) (thresh : ℚ) (show_class : Bool)
    (out_when_no_box : Bool) : VisOutcome :=
  if noBoxPasses boxesOpt thresh && !out_when_no_box then VisOutcome.earlyReturn
  else
    let bs := boxesOpt.getD []
    let surv := match boxesOpt with
      | none => []
      | some bs2 => survivors bs2 thresh
    let temp_boxes := surv.map (fun i => bs.getD i default)
    let temp_classify_id_list :=
      if show_class then surv.map (fun i => classes.getD i 0) else []
    let label_list := id_map_func temp_classify_id_list
    let image_name := imageNameOf im_name
    match txt_file_func image_name label_list temp_boxes with
    | Except.error TxtErr.unboundLocal => VisOutcome.raisedUnboundLocal
    | Except.error TxtErr.indexError => VisOutcome.raisedIndexError
    | Except.ok rows =>
      match xml_create_func xml_path rows with
      | Except.error _ => VisOutcome.raisedTypeError
      | Except.ok pr =>
          VisOutcome.saved surv pr.1 pr.2 (output_dir ++ "/" ++ image_name)

/-- Result quadruple of `convert_from_cls_format`. -/
structure ConvertOut (α β : Type) where
  boxes : Option (List Box)
  segms : Option (List α)
  keyps : Option (List β)
  classes : List Nat

/-- Embeds `convert_from_cls_format` (`vis.py:74-94`):
`box_list = [b for b in cls_boxes if len(b) > 0]`, `boxes` is `None` unless some
class contributed a box, `segms`/`keyps` are flattened only when the nested
input is present, and `classes` repeats each class index by its per-class
count, in class order. -/
def convert_from_cls_format {α β : Type} (cls_boxes : List (List Box))
    (cls_segms : Option (List (List α))) (cls_keyps : Option (List (List β))) :
    ConvertOut α β :=
  let box_list := cls_boxes.filter (fun b => decide (0 < b.length))
  let boxes := if 0 < box_list.length then some box_list.flatten else none
  let segms := cls_segms.map List.flatten
  let keyps := cls_keyps.map List.flatten
  let classes :=
    ((List.range cls_boxes.length).map
      (fun j => List.replicate (cls_boxes.getD j []).length j)).flatten
  ⟨boxes, segms, keyps, classes⟩

/-- Embeds `get_class_string` (`vis.py:97-100`) for `dataset = None`:
`'id{:d}'.format(class_index)`. -/
def classTextOf (class_index : Nat) (dataset : Option (List String)) : String :=
  match dataset with
  | some classes => classes.getD class_index ""
  | none => "id" ++ toString class_index

/-- Python `'{:0.2f}'.format q` for the nonnegative scores this pipeline
formats: round to hundredths and print with exactly two decimals. -/
def pyFormatScore2f (q : ℚ) : String :=
  let c : ℤ := round (q * 100)
  toString (c / 100) ++ "." ++
    (if c % 100 < 10 then "0" ++ toString (c % 100) else toString (c % 100))

/-- Python `s.lstrip('0')`: drop leading `'0'` characters. -/
def pyLstrip0 (s : String) : String :=
  String.mk (s.data.dropWhile (fun ch => ch = '0'))

/-- Embeds `get_class_string` (`vis.py:97-100`):
`class_text + ' {:0.2f}'.format(score).lstrip('0')`.  Note the format literal
`' {:0.2f}'` begins with a space, and `lstrip` applies to that formatted string
(method call binds tighter than `+`). -/
def get_class_string (class_index : Nat) (score : ℚ)
    (dataset : Option (List String)) : String :=
  classTextOf class_index dataset ++ pyLstrip0 (" " ++ pyFormatScore2f score)

/-- The COCO joint order returned by the keypoint schema provider
(`detectron.utils.keypoints.get_keypoints`, consumed at `vis.py:152,435`). -/
def dataset_keypoints : List String :=
  ["nose", "left_eye", "right_eye", "left_ear", "right_ear",
   "left_shoulder", "right_shoulder", "left_elbow", "right_elbow",
   "left_wrist", "right_wrist", "left_hip", "right_hip",
   "left_knee", "right_knee", "left_ankle", "right_ankle"]

/-- `dataset_keypoints.index name` (`keypoints.index(...)` in Python). -/
def kpIdx (name : String) : Nat := dataset_keypoints.indexOf name

/-- Embeds `kp_connections` (`vis.py:53-71`): the 15 limb segments as pairs of
joint indices, in source order. -/
def kp_connections (keypoints : List String) : List (Nat × Nat) :=
  [(keypoints.indexOf "left_eye", keypoints.indexOf "right_eye"),
   (keypoints.indexOf "left_eye", keypoints.indexOf "nose"),
   (keypoints.indexOf "right_eye", keypoints.indexOf "nose"),
   (keypoints.indexOf "right_eye", keypoints.indexOf "right_ear"),
   (keypoints.indexOf "left_eye", keypoints.indexOf "left_ear"),
   (keypoints.indexOf "right_shoulder", keypoints.indexOf "right_elbow"),
   (keypoints.indexOf "right_elbow", keypoints.indexOf "right_wrist"),
   (keypoints.indexOf "left_shoulder", keypoints.indexOf "left_elbow"),
   (keypoints.indexOf "left_elbow", keypoints.indexOf "left_wrist"),
   (keypoints.indexOf "right_hip", keypoints.indexOf "right_knee"),
   (keypoints.indexOf "right_knee", keypoints.indexOf "right_ankle"),
   (keypoints.indexOf "left_hip", keypoints.indexOf "left_knee"),
   (keypoints.indexOf "left_knee", keypoints.indexOf "left_ankle"),
   (keypoints.indexOf "right_shoulder", keypoints.indexOf "left_shoulder"),
   (keypoints.indexOf "right_hip", keypoints.indexOf "left_hip")]

/-- `kp_lines = kp_connections(dataset_keypoints)` (`vis.py:153,442`). -/
def kp_lines : List (Nat × Nat) := kp_connections dataset_keypoints

/-- One keypoint array `kps`: column `i` holds `(kps[0,i], kps[1,i], kps[2,i])`
= (x, y, confidence). -/
structure Kps where
  x : Nat → ℚ
  y : Nat → ℚ
  conf : Nat → ℚ

/-- Whether limb segment `l` is drawn (`vis.py:192` and `vis.py:527`):
`kps[2, i1] > kp_thresh and kps[2, i2] > kp_thresh`. -/
def limb_drawn (kps : Kps) (kp_thresh : ℚ) (l : Nat) : Bool :=
  decide (kp_thresh < kps.conf (kp_lines.getD l (0, 0)).1) &&
    decide (kp_thresh < kps.conf (kp_lines.getD l (0, 0)).2)

/-- Whether the joint marker at index `i` is drawn
(`vis.py:196,200` and `vis.py:532,537`): `kps[2, i] > kp_thresh`. -/
def joint_drawn (kps : Kps) (kp_thresh : ℚ) (i : Nat) : Bool :=
  decide (kp_thresh < kps.conf i)

/-- `mid_shoulder` (`vis.py:164-166` and `vis.py:543-545`): coordinate-wise
mean of the two shoulder joints. -/
def mid_shoulder (kps : Kps) : ℚ × ℚ :=
  ((kps.x (kpIdx "right_shoulder") + kps.x (kpIdx "left_shoulder")) / 2,
   (kps.y (kpIdx "right_shoulder") + kps.y (kpIdx "left_shoulder")) / 2)

/-- `sc_mid_shoulder` (`vis.py:167-169`): `np.minimum` of the two shoulder
confidences. -/
def sc_mid_shoulder (kps : Kps) : ℚ :=
  min (kps.conf (kpIdx "right_shoulder")) (kps.conf (kpIdx "left_shoulder"))

/-- `mid_hip` (`vis.py:170-172`). -/
def mid_hip (kps : Kps) : ℚ × ℚ :=
  ((kps.x (kpIdx "right_hip") + kps.x (kpIdx "left_hip")) / 2,
   (kps.y (kpIdx "right_hip") + kps.y (kpIdx "left_hip")) / 2)

/-- `sc_mid_hip` (`vis.py:173-175`). -/
def sc_mid_hip (kps : Kps) : ℚ :=
  min (kps.conf (kpIdx "right_hip")) (kps.conf (kpIdx "left_hip"))

/-- The synthetic mid-shoulder-to-nose segment is drawn (`vis.py:177` and
`vis.py:555-556`) iff both its endpoint confidences strictly exceed the
threshold. -/
def nose_segment_drawn (kps : Kps) (kp_thresh : ℚ) : Bool :=
  decide (kp_thresh < sc_mid_shoulder kps) &&
    decide (kp_thresh < kps.conf (kpIdx "nose"))

/-- The synthetic mid-shoulder-to-mid-hip segment is drawn (`vis.py:181` and
`vis.py:562`). -/
def torso_segment_drawn (kps : Kps) (kp_thresh : ℚ) : Bool :=
  decide (kp_thresh < sc_mid_shoulder kps) &&
    decide (kp_thresh < sc_mid_hip kps)

/-- The mask-drawing walk of the paint loop (`vis.py:246-250` and
`vis.py:496-500`): over the surviving indices `inds` (the filter `continue`
has already removed low-score detections before this point is reached),
a detection draws a mask iff `hasMask i` (`len(segms) > i`), receiving palette
slot `color_id % palLen` (`color_list[mask_color_id % len(color_list)]`), and
`mask_color_id` advances exactly on drawn masks. -/
def mask_draws (palLen : Nat) (inds : List Nat) (hasMask : Nat → Bool)
    (color_id : Nat) : List (Nat × Nat) :=
  match inds with
  | [] => []
  | i :: rest =>
    if hasMask i then (i, color_id % palLen) :: mask_draws palLen rest hasMask (color_id + 1)
    else mask_draws palLen rest hasMask color_id

/-- The drawn masks of one image: the paint loop runs over `survivors`,
`mask_color_id` starts at `0` (`vis.py:224,460`), and detection `i` has a mask
iff `i < len(segms)` (with `segms` absent modelled as length `0`, matching the
short-circuit `segms is not None and len(segms) > i`). -/
def mask_draws_of (palLen : Nat) (bs : List Box) (thresh : ℚ)
    (segmsLen : Nat) : List (Nat × Nat) :=
  mask_draws palLen (survivors bs thresh) (fun i => decide (i < segmsLen)) 0

end VisPy

namespace VisPy

/-! ### Helper lemmas -/

/-- String concatenation concatenates the underlying character lists. -/
theorem string_data_append (s t : String) : (s ++ t).data = s.data ++ t.data := rfl

/-- Reading every position of a list back in order reproduces the list. -/
theorem map_getD_range {γ : Type _} (l : List γ) (d : γ) :
    (List.range l.length).map (fun i => l.getD i d) = l := by
  induction l with
  | nil => rfl
  | cons x t ih =>
    rw [List.length_cons, List.range_succ_eq_map, List.map_cons, List.map_map]
    have hcomp : ((fun i => (x :: t).getD i d) ∘ Nat.succ) = fun i => t.getD i d := by
      funext i
      simp [List.getD_cons_succ]
    rw [hcomp, ih]
    simp

/-- Membership in the paint order is membership in the index range. -/
theorem mem_argsortDescArea (bs : List Box) (i : Nat) :
    i ∈ argsortDescArea bs ↔ i < bs.length := by
  rw [argsortDescArea, List.mem_insertionSort, List.mem_range]

/-- A detection index survives the filter iff it is in range and its score
reaches the threshold (the boundary is inclusive: `score < thresh` skips). -/
theorem mem_survivors (bs : List Box) (thresh : ℚ) (i : Nat) :
    i ∈ survivors bs thresh ↔ i < bs.length ∧ thresh ≤ (bs.getD i default).score := by
  rw [survivors, List.mem_filter, mem_argsortDescArea]
  simp [not_lt]

/-- The number of surviving indices equals the number of passing detections. -/
theorem survivors_length (bs : List Box) (thresh : ℚ) :
    (survivors bs thresh).length = bs.countP (fun b => decide (thresh ≤ b.score)) := by
  rw [survivors, ← List.countP_eq_length_filter, argsortDescArea,
    List.Perm.countP_eq _ (List.perm_insertionSort _ _)]
  conv_rhs => rw [← map_getD_range bs default]
  rw [List.countP_map]
  refine List.countP_congr (fun i _ => ?_)
  simp [Function.comp, not_lt, decide_eq_true_iff]

/-- The executable paint order satisfies the documented `np.argsort`
contract: it is a sorted permutation of the index range. -/
theorem isArgsort_argsortDescArea (bs : List Box) :
    IsArgsortDescArea bs (argsortDescArea bs) := by
  constructor
  · exact List.perm_insertionSort _ _
  · haveI : IsTotal Nat (fun i j => areaAt bs j ≤ areaAt bs i) :=
      ⟨fun i j => le_total (areaAt bs j) (areaAt bs i)⟩
    haveI : IsTrans Nat (fun i j => areaAt bs j ≤ areaAt bs i) :=
      ⟨fun _ _ _ h1 h2 => le_trans h2 h1⟩
    exact List.sorted_insertionSort _ _

/-- Two lists that are permutations of each other and both sorted by
non-increasing area coincide as soon as areas are injective on their
members. -/
theorem sorted_perm_area_eq (bs : List Box) :
    ∀ l₁ l₂ : List Nat, l₁.Perm l₂ →
      List.Sorted (fun i j => areaAt bs j ≤ areaAt bs i) l₁ →
      List.Sorted (fun i j => areaAt bs j ≤ areaAt bs i) l₂ →
      (∀ i ∈ l₁, ∀ j ∈ l₁, areaAt bs i = areaAt bs j → i = j) →
      l₁ = l₂ := by
  intro l₁
  induction l₁ with
  | nil =>
    intro l₂ hp _ _ _
    exact List.Perm.nil_eq hp
  | cons a t ih =>
    intro l₂ hp hs₁ hs₂ hinj
    cases l₂ with
    | nil => exact absurd hp.symm (by simp)
    | cons b t₂ =>
      have hab : a = b := by
        by_contra hne
        have hbmem : b ∈ a :: t := hp.mem_iff.mpr (List.mem_cons_self b t₂)
        have hamem : a ∈ b :: t₂ := hp.mem_iff.mp (List.mem_cons_self a t)
        have hb_t : b ∈ t := by
          rcases List.mem_cons.mp hbmem with h | h
          · exact absurd h.symm hne
          · exact h
        have ha_t2 : a ∈ t₂ := by
          rcases List.mem_cons.mp hamem with h | h
          · exact absurd h hne
          · exact h
        have h1 : areaAt bs b ≤ areaAt bs a := List.rel_of_sorted_cons hs₁ b hb_t
        have h2 : areaAt bs a ≤ areaAt bs b := List.rel_of_sorted_cons hs₂ a ha_t2
        exact hne (hinj a (List.mem_cons_self a t) b hbmem (le_antisymm h2 h1))
      subst hab
      have hpt : t.Perm t₂ := hp.cons_inv
      rw [ih t₂ hpt hs₁.of_cons hs₂.of_cons
        (fun i hi j hj => hinj i (List.mem_cons_of_mem a hi) j (List.mem_cons_of_mem a hj))]

/-! ### Claim theorems -/

/-- Counterexample for C2 as stated: for a detection set whose two boxes have
equal areas (`(2-0)*(2-0) = 4` and `(1-0)*(4-0) = 4`), the list `[1, 0]`
satisfies everything the program guarantees about the paint order —
`np.argsort`'s documented contract, a permutation sorted by non-increasing
area — yet its equal-area ties are NOT in the original (stable) relative
order, which would be `[0, 1]`.  Since the default quicksort leaves the tie
order unspecified, the claimed stable tie-breaking is not a property of the
program. -/
theorem C2_counterexample :
    IsArgsortDescArea [⟨0, 0, 2, 2, 1⟩, ⟨0, 0, 1, 4, 1⟩] [1, 0] ∧
    ([1, 0] : List Nat).filter
        (fun i => decide (areaAt [⟨0, 0, 2, 2, 1⟩, ⟨0, 0, 1, 4, 1⟩] i = 4)) ≠
      (List.range 2).filter
        (fun i => decide (areaAt [⟨0, 0, 2, 2, 1⟩, ⟨0, 0, 1, 4, 1⟩] i = 4)) := by
  refine ⟨⟨?_, ?_⟩, ?_⟩
  · with_unfolding_all decide
  · with_unfolding_all decide
  · with_unfolding_all decide

/-- C2 (amended).  The paint order computed by `vis_one_image` /
`vis_one_image_opencv` (`sorted_inds = np.argsort(-areas)`) is a permutation
of the detection indices sorted by non-increasing box area
`(x_max - x_min) * (y_max - y_min)`; the relative order of equal-area ties is
unspecified (numpy's default quicksort is not stable); whenever areas are
pairwise distinct the order is uniquely determined by the contract, and in
particular areas `[50, 10, 30]` force the traversal order `[0, 2, 1]` on every
run.  The executable embedding `argsortDescArea` is one valid output of the
contract. -/
theorem C2_paint_order_contract (bs : List Box) :
    IsArgsortDescArea bs (argsortDescArea bs) ∧
    (∀ l₁ l₂ : List Nat, IsArgsortDescArea bs l₁ → IsArgsortDescArea bs l₂ →
      (∀ i ∈ l₁, ∀ j ∈ l₁, areaAt bs i = areaAt bs j → i = j) → l₁ = l₂) ∧
    (∀ l : List Nat,
      IsArgsortDescArea [⟨0, 0, 10, 5, 1⟩, ⟨0, 0, 5, 2, 1⟩, ⟨0, 0, 6, 5, 1⟩] l →
        l = [0, 2, 1]) := by
  refine ⟨isArgsort_argsortDescArea bs, ?_, ?_⟩
  · intro l₁ l₂ h₁ h₂ hinj
    exact sorted_perm_area_eq bs l₁ l₂ (h₁.1.trans h₂.1.symm) h₁.2 h₂.2 hinj
  · intro l hl
    have hconcrete := isArgsort_argsortDescArea
      [⟨0, 0, 10, 5, 1⟩, ⟨0, 0, 5, 2, 1⟩, ⟨0, 0, 6, 5, 1⟩]
    have hinjl : ∀ i ∈ l, ∀ j ∈ l,
        areaAt [⟨0, 0, 10, 5, 1⟩, ⟨0, 0, 5, 2, 1⟩, ⟨0, 0, 6, 5, 1⟩] i =
          areaAt [⟨0, 0, 10, 5, 1⟩, ⟨0, 0, 5, 2, 1⟩, ⟨0, 0, 6, 5, 1⟩] j → i = j := by
      intro i hi j hj
      have hi3 : i < 3 := by simpa using hl.1.mem_iff.mp hi
      have hj3 : j < 3 := by simpa using hl.1.mem_iff.mp hj
      interval_cases i <;> interval_cases j <;> intro hij <;>
        first
          | rfl
          | exact absurd hij (by with_unfolding_all decide)
    have := sorted_perm_area_eq _ l _ (hl.1.trans hconcrete.1.symm) hl.2 hconcrete.2 hinjl
    rw [this]
    with_unfolding_all decide

/-- Witness for C2: the executable paint order of the concrete `[50, 10, 30]`
detection set satisfies the contract, and the contract forces it to be
`[0, 2, 1]`. -/
theorem C2_witness :
    argsortDescArea [⟨0, 0, 10, 5, 1⟩, ⟨0, 0, 5, 2, 1⟩, ⟨0, 0, 6, 5, 1⟩] = [0, 2, 1] :=
  (C2_paint_order_contract [⟨0, 0, 10, 5, 1⟩, ⟨0, 0, 5, 2, 1⟩, ⟨0, 0, 6, 5, 1⟩]).2.2
    (argsortDescArea [⟨0, 0, 10, 5, 1⟩, ⟨0, 0, 5, 2, 1⟩, ⟨0, 0, 6, 5, 1⟩])
    (C2_paint_order_contract [⟨0, 0, 10, 5, 1⟩, ⟨0, 0, 5, 2, 1⟩, ⟨0, 0, 6, 5, 1⟩]).1

/-- The mask-drawing walk enumerates the surviving masked detections in order,
pairing the `k`-th one with palette slot `(c + k) % palLen`. -/
theorem mask_draws_eq (palLen : Nat) (h : Nat → Bool) :
    ∀ (inds : List Nat) (c : Nat),
      mask_draws palLen inds h c =
        (inds.filter h).mapIdx (fun k i => (i, (c + k) % palLen)) := by
  intro inds
  induction inds with
  | nil => intro c; rfl
  | cons i rest ih =>
    intro c
    by_cases hi : h i = true
    · rw [mask_draws, if_pos hi, List.filter_cons, if_pos hi, List.mapIdx_cons, ih (c + 1)]
      have hfun : (fun (k : Nat) (x : Nat) => (x, (c + 1 + k) % palLen)) =
          fun (k : Nat) (x : Nat) => (x, (c + (k + 1)) % palLen) := by
        funext k x
        rw [Nat.add_assoc, Nat.add_comm 1 k]
      rw [hfun]
      simp
    · rw [mask_draws, if_neg hi, List.filter_cons, if_neg hi, ih c]

/-- C9.  Throughout a rendering pass, the mask palette index advances by one
exactly per drawn mask: the drawn masks are the surviving detections that have
a mask (`len(segms) > i`), in paint order, and the `k`-th drawn mask receives
palette color `k % len(color_list)`.  Detections skipped by the score filter
(they are not in `survivors`) or lacking a mask (removed by the filter here)
consume no palette slot. -/
theorem C9_palette_advance (palLen : Nat) (bs : List Box) (thresh : ℚ) (segmsLen : Nat) :
    mask_draws_of palLen bs thresh segmsLen =
      ((survivors bs thresh).filter (fun i => decide (i < segmsLen))).mapIdx
        (fun k i => (i, k % palLen)) := by
  rw [mask_draws_of, mask_draws_eq]
  simp

end VisPy

namespace VisPy

/-- C8.  Keypoint gating: a limb segment or joint marker is drawn only if every
endpoint's confidence strictly exceeds the visibility threshold; with threshold
`2`, an endpoint confidence of `1` suppresses the segment regardless of the
other endpoint; and the synthetic mid-shoulder / mid-hip points are the
coordinate-wise average of the two named shoulder / hip joints (indices `6`/`5`
and `12`/`11` of the joint vocabulary) with confidence the minimum of the two,
the synthetic segments being gated the same way. -/
theorem C8_keypoint_gating :
    (∀ (kps : Kps) (t : ℚ) (l : Nat),
        limb_drawn kps t l = true →
          t < kps.conf (kp_lines.getD l (0, 0)).1 ∧ t < kps.conf (kp_lines.getD l (0, 0)).2) ∧
    (∀ (kps : Kps) (l : Nat),
        kps.conf (kp_lines.getD l (0, 0)).1 = 1 ∨ kps.conf (kp_lines.getD l (0, 0)).2 = 1 →
          limb_drawn kps 2 l = false) ∧
    (∀ kps : Kps,
        mid_shoulder kps = ((kps.x 6 + kps.x 5) / 2, (kps.y 6 + kps.y 5) / 2) ∧
        sc_mid_shoulder kps = min (kps.conf 6) (kps.conf 5) ∧
        mid_hip kps = ((kps.x 12 + kps.x 11) / 2, (kps.y 12 + kps.y 11) / 2) ∧
        sc_mid_hip kps = min (kps.conf 12) (kps.conf 11)) ∧
    (∀ (kps : Kps) (t : ℚ),
        nose_segment_drawn kps t = true →
          t < min (kps.conf 6) (kps.conf 5) ∧ t < kps.conf 0) ∧
    (∀ (kps : Kps) (t : ℚ) (i : Nat), joint_drawn kps t i = true → t < kps.conf i) := by
  have hrs : kpIdx "right_shoulder" = 6 := by decide
  have hls : kpIdx "left_shoulder" = 5 := by decide
  have hrh : kpIdx "right_hip" = 12 := by decide
  have hlh : kpIdx "left_hip" = 11 := by decide
  have hn : kpIdx "nose" = 0 := by decide
  have hlt : ¬ ((2 : ℚ) < 1) := by norm_num
  refine ⟨?_, ?_, ?_, ?_, ?_⟩
  · intro kps t l h
    rw [limb_drawn, Bool.and_eq_true, decide_eq_true_iff, decide_eq_true_iff] at h
    exact h
  · intro kps l h
    rcases h with h | h
    · rw [limb_drawn, h]
      simp [hlt]
    · rw [limb_drawn, h]
      simp [hlt]
  · intro kps
    refine ⟨?_, ?_, ?_, ?_⟩
    · rw [mid_shoulder, hrs, hls]
    · rw [sc_mid_shoulder, hrs, hls]
    · rw [mid_hip, hrh, hlh]
    · rw [sc_mid_hip, hrh, hlh]
  · intro kps t h
    rw [nose_segment_drawn, Bool.and_eq_true, decide_eq_true_iff, decide_eq_true_iff,
      sc_mid_shoulder, hrs, hls, hn] at h
    exact h
  · intro kps t i h
    rw [joint_drawn, decide_eq_true_iff] at h
    exact h

/-- Witness for C8: a concrete keypoint array whose limb `0` (left eye to right
eye, joint indices `1` and `2`) has one endpoint confidence `1` and the other
`10`; with threshold `2` the segment is not drawn. -/
theorem C8_witness :
    limb_drawn ⟨fun _ => 0, fun _ => 0, fun i => if i = 1 then 1 else 10⟩ 2 0 = false := by
  refine C8_keypoint_gating.2.1 _ 0 (Or.inl ?_)
  have h : (kp_lines.getD 0 (0, 0)).1 = 1 := by decide
  rw [h]
  simp

/-- The dict built from the seven-entry vocabulary, evaluated. -/
theorem indexDict_eval :
    indexDict = [(1, "id12"), (2, "id13"), (3, "id14"), (4, "id15"),
      (5, "id18"), (6, "id19"), (7, "id26")] := by decide

/-- Class indices of eight and above are not in the dict's domain, and the
lookup silently yields `none`. -/
theorem indexDictGet_of_ge (i : Nat) (h : 8 ≤ i) : indexDictGet i = none := by
  have h1 : (i == 1) = false := by simp; omega
  have h2 : (i == 2) = false := by simp; omega
  have h3 : (i == 3) = false := by simp; omega
  have h4 : (i == 4) = false := by simp; omega
  have h5 : (i == 5) = false := by simp; omega
  have h6 : (i == 6) = false := by simp; omega
  have h7 : (i == 7) = false := by simp; omega
  rw [indexDictGet, indexDict_eval]
  simp [List.lookup, h1, h2, h3, h4, h5, h6, h7]

/-- Class indices in the dict's domain map to an actual label. -/
theorem indexDictGet_isSome (c : Nat) (h1 : 1 ≤ c) (h7 : c ≤ 7) :
    (indexDictGet c).isSome = true := by
  interval_cases c <;> decide

/-- Counterexample for C5 as stated: for class indices outside the table's
domain (`0`, or `8` and above) `id_map_func` does not fail with any
`UnmappedIdentity`-style error; it silently produces a value, the missing-key
marker `None`. -/
theorem C5_counterexample :
    id_map_func [0] = [none] ∧ id_map_func [8] = [none] := by decide

/-- C5 (amended).  The identity mapping is a positional lookup into the fixed
7-entry vocabulary indexed from `1` (index `0` is never mapped): for class
index `i` in `1..7` it yields the `i`-th vocabulary entry; for any class index
outside `1..7` it silently yields the missing-key marker `None` instead of
raising an error. -/
theorem C5_identity_mapping (i : Nat) :
    (1 ≤ i → i ≤ 7 → id_map_func [i] = [some (id_list.getD (i - 1) "")]) ∧
    (i = 0 ∨ 8 ≤ i → id_map_func [i] = [none]) := by
  constructor
  · intro h1 h7
    interval_cases i <;> decide
  · rintro (rfl | h8)
    · decide
    · simp [id_map_func, indexDictGet_of_ge i h8]

/-- Witness for C5: class index `3` maps to the third vocabulary entry, class
index `9` maps to the `None` marker. -/
theorem C5_witness :
    id_map_func [3] = [some (id_list.getD 2 "")] ∧ id_map_func [9] = [none] :=
  ⟨(C5_identity_mapping 3).1 (by decide) (by decide),
    (C5_identity_mapping 9).2 (Or.inr (by decide))⟩

/-- C7.  `get_class_string` at class index `1`, score `0.9`, no dataset: the
code produces `"id1 0.90"`, not the `"id1 .90"` the claim states.  The format
literal `' {:0.2f}'` starts with a space, so the following `.lstrip('0')`
(which applies to the formatted string, not to the concatenation) finds no
leading `'0'` to strip; the spec's example `"0.87" -> ".87"` does not happen
either. -/
theorem C7_score_format :
    get_class_string 1 (9 / 10) none = "id1 0.90" ∧
    get_class_string 1 (9 / 10) none ≠ "id1 .90" ∧
    pyLstrip0 (" " ++ pyFormatScore2f (87 / 100)) = " 0.87" := by
  with_unfolding_all decide

/-- Counterexample for C4 as stated: a processed image named `a.jpeg` with one
passing detection writes its XML to the hard-coded
`/data/yang/detectron/output/xml_files/a..xml` — not under the caller's
`output_dir` (`"out"`), and with the four-character extension mangled to
`a..xml` rather than `a.xml`. -/
theorem C4_counterexample :
    vis_one_image "a.jpeg" "out" (some [⟨0, 0, 2, 2, 1⟩]) [1] (9 / 10) true false =
        VisOutcome.saved [0] [⟨"a.jpeg", some "id12", 0, 0, 2, 2⟩]
          "/data/yang/detectron/output/xml_files/a..xml" "out/a.jpeg" ∧
    "/data/yang/detectron/output/xml_files/a..xml" ≠ "out/a.xml" := by
  with_unfolding_all decide

/-- C4 (amended).  The annotation file path is deterministic in the image base
name, but it lives under the hard-coded `xml_path` (never under `output_dir`),
and the name drops the last four characters of the base name; this equals
"base name with its extension replaced by `.xml`" exactly when the extension
has three characters. -/
theorem C4_xml_file_name (stem ext : String) (h3 : ext.data.length = 3) :
    temp_xmlfile xml_path (stem ++ "." ++ ext) = xml_path ++ "/" ++ stem ++ ".xml" := by
  have hdrop : pyDropLast4 (stem ++ "." ++ ext) = stem := by
    rw [pyDropLast4, string_data_append, string_data_append]
    rw [List.append_assoc]
    have hlen : (stem.data ++ (".".data ++ ext.data)).length - 4 = stem.data.length := by
      simp [h3]
    rw [hlen, List.take_left]
  rw [temp_xmlfile, hdrop]

end VisPy

namespace VisPy

/-- Sum over an index range of a function supported on one index. -/
theorem sum_range_single (c : Nat → Nat) (x : Nat) :
    ∀ n, ((List.range n).map (fun j => if j = x then c j else 0)).sum =
      if x < n then c x else 0 := by
  intro n
  induction n with
  | zero => simp
  | succ n ih =>
    rw [List.range_succ, List.map_append, List.sum_append, ih]
    by_cases hx : x < n
    · have hne : ¬ (n = x) := by omega
      have hx1 : x < n + 1 := by omega
      simp [hne, hx, hx1]
    · by_cases he : n = x
      · subst he
        simp [hx]
      · have hx1 : ¬ (x < n + 1) := by omega
        simp [hx, he, hx1]

/-- Flattening blocks of repeated indices taken in increasing index order
yields a non-decreasing list. -/
theorem replicate_flatten_sorted (c : Nat → Nat) :
    ∀ n, List.Sorted (fun a b => a ≤ b)
      (((List.range n).map (fun j => List.replicate (c j) j)).flatten) := by
  intro n
  induction n with
  | zero => simp
  | succ n ih =>
    rw [List.range_succ, List.map_append, List.flatten_append]
    refine (List.pairwise_append).mpr ⟨ih, ?_, ?_⟩
    · simp only [List.map_cons, List.map_nil, List.flatten_cons, List.flatten_nil,
        List.append_nil]
      exact List.pairwise_replicate.mpr (Or.inr le_rfl)
    · intro a ha b hb
      simp only [List.map_cons, List.map_nil, List.flatten_cons, List.flatten_nil,
        List.append_nil] at hb
      rw [List.mem_flatten] at ha
      obtain ⟨l, hl, hal⟩ := ha
      rw [List.mem_map] at hl
      obtain ⟨j, hj, rfl⟩ := hl
      rw [List.mem_range] at hj
      have ha' : a = j := List.eq_of_mem_replicate hal
      have hb' : b = n := List.eq_of_mem_replicate hb
      omega

/-- Dropping the empty blocks before flattening changes nothing. -/
theorem flatten_filter_nonempty {γ : Type _} :
    ∀ L : List (List γ),
      (L.filter (fun l => decide (0 < l.length))).flatten = L.flatten := by
  intro L
  induction L with
  | nil => rfl
  | cons x t ih =>
    by_cases hx : 0 < x.length
    · rw [List.filter_cons, if_pos (by simpa using hx), List.flatten_cons, ih,
        List.flatten_cons]
    · have hx0 : x = [] := by
        have := Nat.le_zero.mp (Nat.not_lt.mp hx)
        exact List.length_eq_zero.mp this
      subst hx0
      rw [List.filter_cons, if_neg (by simp), ih, List.flatten_cons]
      simp

/-- Membership-based reading of the empty-block filter. -/
theorem filter_nonempty_eq_nil {γ : Type _} (L : List (List γ)) :
    L.filter (fun l => decide (0 < l.length)) = [] ↔ ∀ b ∈ L, b = [] := by
  rw [List.filter_eq_nil_iff]
  constructor
  · intro h b hb
    have := h b hb
    simpa [List.length_pos] using this
  · intro h b hb
    simp [h b hb]

/-- C6.  `convert_from_cls_format` flattens the per-class nested form: the
reconstructed flat class-index sequence has length equal to the total
detection count, contains each class index exactly its per-class count of
times, in class order (non-decreasing); `boxes` is the `None` sentinel exactly
when every class's box list is empty (otherwise it is the flat concatenation);
and `segms` / `keyps` are `None` exactly when the corresponding nested input
was absent — a present but all-empty nested input yields `Some []`, not
`None`. -/
theorem C6_convert {α β : Type} (cls_boxes : List (List Box))
    (cls_segms : Option (List (List α))) (cls_keyps : Option (List (List β))) :
    (convert_from_cls_format cls_boxes cls_segms cls_keyps).classes.length =
        (cls_boxes.map List.length).sum ∧
    (∀ j, (convert_from_cls_format cls_boxes cls_segms cls_keyps).classes.count j =
        (cls_boxes.getD j []).length) ∧
    List.Sorted (fun a b => a ≤ b)
      (convert_from_cls_format cls_boxes cls_segms cls_keyps).classes ∧
    ((convert_from_cls_format cls_boxes cls_segms cls_keyps).boxes = none ↔
        ∀ b ∈ cls_boxes, b = []) ∧
    (∀ flat, (convert_from_cls_format cls_boxes cls_segms cls_keyps).boxes = some flat →
        flat = cls_boxes.flatten) ∧
    ((convert_from_cls_format cls_boxes cls_segms cls_keyps).segms = none ↔
        cls_segms = none) ∧
    ((convert_from_cls_format cls_boxes cls_segms cls_keyps).keyps = none ↔
        cls_keyps = none) ∧
    (∀ l, cls_segms = some l → (∀ s ∈ l, s = []) →
        (convert_from_cls_format cls_boxes cls_segms cls_keyps).segms = some []) := by
  have hmapLen : (List.range cls_boxes.length).map (fun j => (cls_boxes.getD j []).length) =
      cls_boxes.map List.length := by
    conv_rhs => rw [← map_getD_range cls_boxes []]
    rw [List.map_map]
    rfl
  refine ⟨?_, ?_, ?_, ?_, ?_, ?_, ?_, ?_⟩
  · simp only [convert_from_cls_format, List.length_flatten, List.map_map]
    rw [← hmapLen]
    rw [List.map_congr_left (fun j _ => by simp :
      ∀ j ∈ List.range cls_boxes.length,
        (List.length ∘ fun j => List.replicate (cls_boxes.getD j []).length j) j =
          (fun j => (cls_boxes.getD j []).length) j)]
  · intro j
    simp only [convert_from_cls_format, List.count_flatten, List.map_map]
    have hcomp : ((List.count j) ∘ fun j' => List.replicate (cls_boxes.getD j' []).length j') =
        fun j' => if j' = j then (cls_boxes.getD j' []).length else 0 := by
      funext j'
      simp [List.count_replicate]
    rw [hcomp, sum_range_single]
    by_cases hj : j < cls_boxes.length
    · simp [hj]
    · rw [if_neg hj]
      rw [List.getD_eq_default]
      · rfl
      · omega
  · simp only [convert_from_cls_format]
    exact replicate_flatten_sorted _ _
  · simp only [convert_from_cls_format]
    by_cases hc : 0 < (cls_boxes.filter (fun b => decide (0 < b.length))).length
    · rw [if_pos hc]
      constructor
      · intro h
        exact absurd h (by simp)
      · intro hall
        exfalso
        obtain ⟨b, hb⟩ := List.exists_mem_of_length_pos hc
        have hmem := List.mem_filter.mp hb
        have hb0 := hall b hmem.1
        rw [hb0] at hmem
        simpa using hmem.2
    · rw [if_neg hc]
      have hnil : cls_boxes.filter (fun b => decide (0 < b.length)) = [] :=
        List.length_eq_zero.mp (by omega)
      simp only [true_iff]
      exact (filter_nonempty_eq_nil cls_boxes).mp hnil
  · intro flat h
    simp only [convert_from_cls_format] at h
    by_cases hc : 0 < (cls_boxes.filter (fun b => decide (0 < b.length))).length
    · rw [if_pos hc] at h
      have := Option.some_injective _ h
      rw [← this, ← flatten_filter_nonempty cls_boxes]
    · rw [if_neg hc] at h
      exact absurd h (by simp)
  · simp only [convert_from_cls_format]
    cases cls_segms <;> simp
  · simp only [convert_from_cls_format]
    cases cls_keyps <;> simp
  · intro l hl hall
    subst hl
    simp only [convert_from_cls_format]
    rw [show Option.map List.flatten (some l) = some l.flatten from rfl,
      List.flatten_eq_nil_iff.mpr hall]

end VisPy

namespace VisPy

/-- On the non-early-exit branch with a present box array, `vis_one_image`
reduces to the export chain over the surviving detections. -/
theorem vis_one_image_some (im_name output_dir : String) (bs : List Box)
    (classes : List Nat) (thresh : ℚ) (show_class out_when_no_box : Bool)
    (hguard : noBoxPasses (some bs) thresh = false) :
    vis_one_image im_name output_dir (some bs) classes thresh show_class out_when_no_box =
      (match txt_file_func (imageNameOf im_name)
          (id_map_func (if show_class then
            (survivors bs thresh).map (fun i => classes.getD i 0) else []))
          ((survivors bs thresh).map (fun i => bs.getD i default)) with
        | Except.error TxtErr.unboundLocal => VisOutcome.raisedUnboundLocal
        | Except.error TxtErr.indexError => VisOutcome.raisedIndexError
        | Except.ok rows =>
          match xml_create_func xml_path rows with
          | Except.error _ => VisOutcome.raisedTypeError
          | Except.ok pr =>
              VisOutcome.saved (survivors bs thresh) pr.1 pr.2
                (output_dir ++ "/" ++ imageNameOf im_name)) := by
  rw [vis_one_image]
  rw [hguard]
  simp only [Bool.false_and, Bool.false_eq_true, if_false, Option.getD_some]

/-- In a nonempty box array with one passing detection, the guard of
`vis.py:432` does not fire. -/
theorem noBoxPasses_false (bs : List Box) (thresh : ℚ)
    (hpass : ∃ b ∈ bs, thresh ≤ b.score) :
    noBoxPasses (some bs) thresh = false := by
  obtain ⟨b0, hb0, hs0⟩ := hpass
  rw [noBoxPasses]
  refine Bool.or_eq_false_iff.mpr ⟨?_, ?_⟩
  · simpa [List.isEmpty_iff] using List.ne_nil_of_mem hb0
  · rw [List.all_eq_false]
    exact ⟨b0, hb0, by simpa using not_lt.mpr hs0⟩

/-- A passing detection yields a surviving index. -/
theorem survivors_ne_nil (bs : List Box) (thresh : ℚ)
    (hpass : ∃ b ∈ bs, thresh ≤ b.score) :
    survivors bs thresh ≠ [] := by
  obtain ⟨b0, hb0, hs0⟩ := hpass
  obtain ⟨i, hi, hgi⟩ := List.mem_iff_getElem.mp hb0
  intro hnil
  have hmem : i ∈ survivors bs thresh := by
    rw [mem_survivors]
    refine ⟨hi, ?_⟩
    rw [List.getD_eq_getElem _ _ hi, hgi]
    exact hs0
  rw [hnil] at hmem
  exact List.not_mem_nil _ hmem

/-- C10.  With `show_class = False` (the default) and at least one detection
at or above the threshold, `vis_one_image` raises `IndexError` before any
annotation file is written: the label list is populated only inside the
`show_class` branch (`vis.py:485-486`) while the box array is stacked
unconditionally (`vis.py:474`), so `txt_file_func` reads past the end of the
empty label list (`vis.py:273`), and neither the XML nor the figure file is
produced. -/
theorem C10_show_class_index_error (im_name output_dir : String) (bs : List Box)
    (classes : List Nat) (thresh : ℚ) (out_when_no_box : Bool)
    (hpass : ∃ b ∈ bs, thresh ≤ b.score) :
    vis_one_image im_name output_dir (some bs) classes thresh false out_when_no_box =
      VisOutcome.raisedIndexError := by
  have hguard := noBoxPasses_false bs thresh hpass
  have hsne := survivors_ne_nil bs thresh hpass
  have hlen0 : ¬ (((survivors bs thresh).map (fun i => bs.getD i default)).length = 0) := by
    rw [List.length_map]
    simpa [List.length_eq_zero] using hsne
  rw [vis_one_image_some im_name output_dir bs classes thresh false out_when_no_box hguard]
  have htxt : txt_file_func (imageNameOf im_name)
      (id_map_func (if false then (survivors bs thresh).map (fun i => classes.getD i 0) else []))
      ((survivors bs thresh).map (fun i => bs.getD i default)) =
      Except.error TxtErr.indexError := by
    have h2 : ¬ (((survivors bs thresh).map (fun i => bs.getD i default)).length ≤
        (id_map_func (if false then
          (survivors bs thresh).map (fun i => classes.getD i 0) else [])).length) := by
      simp only [Bool.false_eq_true, if_false, id_map_func, List.map_nil,
        List.length_nil, Nat.le_zero]
      exact hlen0
    rw [txt_file_func, if_neg hlen0, if_neg h2]
  rw [htxt]

/-- Witness for C10: a concrete call with one passing detection and
`show_class = False` ends in the `IndexError` outcome. -/
theorem C10_witness :
    vis_one_image "w.jpg" "out" (some [⟨0, 0, 3, 3, 1⟩]) [2] (9 / 10) false false =
      VisOutcome.raisedIndexError :=
  C10_show_class_index_error "w.jpg" "out" [⟨0, 0, 3, 3, 1⟩] [2] (9 / 10) false
    ⟨⟨0, 0, 3, 3, 1⟩, by simp, by with_unfolding_all decide⟩

/-- With the emit flag set and nothing passing the threshold, `vis_one_image`
always ends in the `UnboundLocalError` raised by `txt_file_func` on the empty
surviving-box array (`vis.py:285`): no image and no annotation is produced. -/
theorem vis_one_image_unbound (im_name output_dir : String)
    (boxesOpt : Option (List Box)) (classes : List Nat) (thresh : ℚ)
    (show_class : Bool) (h : noBoxPasses boxesOpt thresh = true) :
    vis_one_image im_name output_dir boxesOpt classes thresh show_class true =
      VisOutcome.raisedUnboundLocal := by
  have hsurv : (match boxesOpt with
      | none => ([] : List Nat)
      | some bs2 => survivors bs2 thresh) = [] := by
    cases boxesOpt with
    | none => rfl
    | some bs =>
      show survivors bs thresh = []
      rw [noBoxPasses] at h
      rw [survivors, List.filter_eq_nil_iff]
      intro i hi
      rw [mem_argsortDescArea] at hi
      rcases Bool.or_eq_true_iff.mp h with hemp | hall
      · rw [List.isEmpty_iff] at hemp
        subst hemp
        simp at hi
      · have hm : bs.getD i default ∈ bs := by
          rw [List.getD_eq_getElem _ _ hi]
          exact List.getElem_mem hi
        have hlt := List.all_eq_true.mp hall _ hm
        simp only [decide_eq_true_iff] at hlt
        simpa using hlt
  rw [vis_one_image.eq_def]
  simp only [Bool.not_true, Bool.and_false, Bool.false_eq_true, if_false]
  rw [hsurv]
  rfl

/-- C3 (code bug in its second half).  First conjunct: with the emit-flag
(`out_when_no_box`) unset and no detection reaching the threshold (or no
detections at all), `vis_one_image` returns at `vis.py:433` producing no
output artifacts — this part of the claim holds.  Second conjunct: with the
emit-flag SET and nothing passing, the code does not produce an image and an
empty-object record as the claim states: for EVERY such input, `txt_file_func`
is reached with an empty box array, its loop never runs, and
`return temp_txt_total` raises `UnboundLocalError` (`vis.py:285`), so no
artifact at all is produced.  Third and fourth conjuncts: the guard
`noBoxPasses` is exactly the claim's trigger — zero detections (`None` or
empty) or every confidence below the threshold.  The last two conjuncts
evaluate the failing inputs concretely (a below-threshold detection, and
`boxes is None`). -/
theorem C3_no_output_contract :
    (∀ (im_name output_dir : String) (boxesOpt : Option (List Box)) (classes : List Nat)
        (thresh : ℚ) (show_class : Bool),
        noBoxPasses boxesOpt thresh = true →
          vis_one_image im_name output_dir boxesOpt classes thresh show_class false =
            VisOutcome.earlyReturn) ∧
    (∀ (im_name output_dir : String) (boxesOpt : Option (List Box)) (classes : List Nat)
        (thresh : ℚ) (show_class : Bool),
        noBoxPasses boxesOpt thresh = true →
          vis_one_image im_name output_dir boxesOpt classes thresh show_class true =
            VisOutcome.raisedUnboundLocal) ∧
    (∀ (bs : List Box) (thresh : ℚ),
        noBoxPasses (some bs) thresh = true ↔ bs = [] ∨ ∀ b ∈ bs, b.score < thresh) ∧
    (∀ thresh : ℚ, noBoxPasses none thresh = true) ∧
    vis_one_image "a.jpg" "out" (some [⟨0, 0, 1, 1, 1 / 2⟩]) [1] (9 / 10) false true =
        VisOutcome.raisedUnboundLocal ∧
    vis_one_image "a.jpg" "out" none [] (9 / 10) true true =
        VisOutcome.raisedUnboundLocal := by
  refine ⟨?_, ?_, ?_, fun _ => rfl, by with_unfolding_all decide,
    by with_unfolding_all decide⟩
  · intro im_name output_dir boxesOpt classes thresh show_class h
    rw [vis_one_image.eq_def, h]
    simp
  · intro im_name output_dir boxesOpt classes thresh show_class h
    exact vis_one_image_unbound im_name output_dir boxesOpt classes thresh show_class h
  · intro bs thresh
    simp [noBoxPasses, List.isEmpty_iff, List.all_eq_true]

/-- Witness for C3: the early-exit conjunct on a concrete empty detection set
with the flag unset, and the unbound-error conjunct on `boxes = None` with the
flag set. -/
theorem C3_witness :
    vis_one_image "b.jpg" "out" (some []) [] (9 / 10) false false =
        VisOutcome.earlyReturn ∧
    vis_one_image "b.jpg" "out" none [] (9 / 10) false true =
        VisOutcome.raisedUnboundLocal :=
  ⟨C3_no_output_contract.1 "b.jpg" "out" (some []) [] (9 / 10) false (by decide),
   C3_no_output_contract.2.1 "b.jpg" "out" none [] (9 / 10) false (by decide)⟩

end VisPy

namespace VisPy

/-- Counterexample for C1 as stated: a call (with the default
`show_class = False`) on one detection whose score passes the threshold ends
in an `IndexError`; no Annotation Record exists, although the count of
passing detections is `1`, so "the Annotation Record contains exactly one
object entry per detection with score >= threshold" fails for this call. -/
theorem C1_counterexample :
    vis_one_image "a.jpg" "out" (some [⟨0, 0, 2, 2, 1⟩]) [1] (9 / 10) false false =
        VisOutcome.raisedIndexError ∧
    ([⟨0, 0, 2, 2, 1⟩] : List Box).countP (fun b => decide (9 / 10 ≤ b.score)) = 1 := by
  with_unfolding_all decide

/-- Every row name produced by `txt_rows` is one of the supplied labels, so if
all labels are present the names are present. -/
theorem txt_rows_name_isSome (img : String) (labels : List (Option String))
    (tb : List Box) (hlab : ∀ o ∈ labels, o.isSome = true)
    (hle : tb.length ≤ labels.length) :
    ∀ r ∈ txt_rows img labels tb, r.name.isSome = true := by
  intro r hr
  rw [txt_rows] at hr
  obtain ⟨i, hi, rfl⟩ := List.mem_map.mp hr
  rw [List.mem_range] at hi
  have hil : i < labels.length := lt_of_lt_of_le hi hle
  have hmem : labels.getD i none ∈ labels := by
    rw [List.getD_eq_getElem _ _ hil]
    exact List.getElem_mem hil
  exact hlab _ hmem

/-- C1 (amended).  Whenever the export path can complete — `show_class = True`
and every surviving detection's class index is in the identity table's domain
`1..7`, with at least one detection passing — `vis_one_image` saves exactly:
the rendered set is `survivors` (a detection is drawn iff it is in range and
its score is `>=` the threshold, boundary inclusive), and the Annotation
Record carries exactly one object entry per detection with score `>=`
threshold. -/
theorem C1_threshold_export (im_name output_dir : String) (bs : List Box)
    (classes : List Nat) (thresh : ℚ) (out_when_no_box : Bool)
    (hpass : ∃ b ∈ bs, thresh ≤ b.score)
    (hmap : ∀ i ∈ survivors bs thresh, 1 ≤ classes.getD i 0 ∧ classes.getD i 0 ≤ 7) :
    ∃ objs xfile,
      vis_one_image im_name output_dir (some bs) classes thresh true out_when_no_box =
          VisOutcome.saved (survivors bs thresh) objs xfile
            (output_dir ++ "/" ++ imageNameOf im_name) ∧
      objs.length = bs.countP (fun b => decide (thresh ≤ b.score)) ∧
      (∀ i, i ∈ survivors bs thresh ↔
          i < bs.length ∧ thresh ≤ (bs.getD i default).score) := by
  have hguard := noBoxPasses_false bs thresh hpass
  have hsne := survivors_ne_nil bs thresh hpass
  have hlen0 : ¬ (((survivors bs thresh).map (fun i => bs.getD i default)).length = 0) := by
    rw [List.length_map]
    simpa [List.length_eq_zero] using hsne
  have hle : ((survivors bs thresh).map (fun i => bs.getD i default)).length ≤
      (id_map_func ((survivors bs thresh).map (fun i => classes.getD i 0))).length := by
    simp [id_map_func]
  have htxt : txt_file_func (imageNameOf im_name)
      (id_map_func ((survivors bs thresh).map (fun i => classes.getD i 0)))
      ((survivors bs thresh).map (fun i => bs.getD i default)) =
      Except.ok (txt_rows (imageNameOf im_name)
        (id_map_func ((survivors bs thresh).map (fun i => classes.getD i 0)))
        ((survivors bs thresh).map (fun i => bs.getD i default))) := by
    rw [txt_file_func, if_neg hlen0, if_pos hle]
  have hrlen : (txt_rows (imageNameOf im_name)
      (id_map_func ((survivors bs thresh).map (fun i => classes.getD i 0)))
      ((survivors bs thresh).map (fun i => bs.getD i default))).length =
      (survivors bs thresh).length := by
    simp [txt_rows]
  have hrne : ¬ ((txt_rows (imageNameOf im_name)
      (id_map_func ((survivors bs thresh).map (fun i => classes.getD i 0)))
      ((survivors bs thresh).map (fun i => bs.getD i default))).length = 0) := by
    rw [hrlen]
    simpa [List.length_eq_zero] using hsne
  have hlab : ∀ o ∈ id_map_func ((survivors bs thresh).map (fun i => classes.getD i 0)),
      o.isSome = true := by
    intro o ho
    rw [id_map_func] at ho
    obtain ⟨c, hc, rfl⟩ := List.mem_map.mp ho
    obtain ⟨j, hj, rfl⟩ := List.mem_map.mp hc
    exact indexDictGet_isSome _ (hmap j hj).1 (hmap j hj).2
  have hnone : (txt_rows (imageNameOf im_name)
      (id_map_func ((survivors bs thresh).map (fun i => classes.getD i 0)))
      ((survivors bs thresh).map (fun i => bs.getD i default))).any
        (fun r => r.name.isNone) = false := by
    rw [List.any_eq_false]
    intro r hr
    have hsome := txt_rows_name_isSome _ _ _ hlab hle r hr
    obtain ⟨v, hv⟩ := Option.isSome_iff_exists.mp hsome
    rw [hv]
    simp
  refine ⟨txt_rows (imageNameOf im_name)
      (id_map_func ((survivors bs thresh).map (fun i => classes.getD i 0)))
      ((survivors bs thresh).map (fun i => bs.getD i default)),
    temp_xmlfile xml_path
      (((txt_rows (imageNameOf im_name)
        (id_map_func ((survivors bs thresh).map (fun i => classes.getD i 0)))
        ((survivors bs thresh).map (fun i => bs.getD i default))).getLastD
          default).fileName),
    ?_, ?_, fun i => mem_survivors bs thresh i⟩
  · rw [vis_one_image_some im_name output_dir bs classes thresh true out_when_no_box hguard]
    rw [if_pos rfl]
    have hxml : xml_create_func xml_path
        (txt_rows (imageNameOf im_name)
          (id_map_func ((survivors bs thresh).map (fun i => classes.getD i 0)))
          ((survivors bs thresh).map (fun i => bs.getD i default))) =
        Except.ok (txt_rows (imageNameOf im_name)
          (id_map_func ((survivors bs thresh).map (fun i => classes.getD i 0)))
          ((survivors bs thresh).map (fun i => bs.getD i default)),
          temp_xmlfile xml_path
            (((txt_rows (imageNameOf im_name)
              (id_map_func ((survivors bs thresh).map (fun i => classes.getD i 0)))
              ((survivors bs thresh).map (fun i => bs.getD i default))).getLastD
                default).fileName)) := by
      rw [xml_create_func, if_neg hrne, if_neg (by rw [hnone]; simp)]
    simp only [htxt, hxml]
  · rw [hrlen, survivors_length]

/-- Witness for C1: the amended export contract evaluated on one concrete
passing detection with `show_class = True`. -/
theorem C1_witness :
    ∃ objs xfile,
      vis_one_image "a.jpg" "out" (some [⟨0, 0, 2, 2, 1⟩]) [1] (9 / 10) true false =
          VisOutcome.saved (survivors [⟨0, 0, 2, 2, 1⟩] (9 / 10)) objs xfile
            ("out" ++ "/" ++ imageNameOf "a.jpg") ∧
      objs.length = ([⟨0, 0, 2, 2, 1⟩] : List Box).countP (fun b => decide (9 / 10 ≤ b.score)) ∧
      (∀ i, i ∈ survivors [⟨0, 0, 2, 2, 1⟩] (9 / 10) ↔
          i < ([⟨0, 0, 2, 2, 1⟩] : List Box).length ∧
            9 / 10 ≤ (([⟨0, 0, 2, 2, 1⟩] : List Box).getD i default).score) :=
  C1_threshold_export "a.jpg" "out" [⟨0, 0, 2, 2, 1⟩] [1] (9 / 10) false
    ⟨⟨0, 0, 2, 2, 1⟩, by simp, by with_unfolding_all decide⟩
    (by with_unfolding_all decide)

/-- Witness for C4: for a three-character extension the constructed path does
match "base name with extension replaced", under the hard-coded directory. -/
theorem C4_witness :
    temp_xmlfile xml_path ("pic" ++ "." ++ "jpg") = xml_path ++ "/" ++ "pic" ++ ".xml" :=
  C4_xml_file_name "pic" "jpg" (by decide)

/-- Witness for C6: a present but all-empty nested segmentation input yields
`some []`, not the absence sentinel. -/
theorem C6_witness :
    (convert_from_cls_format [[], [⟨0, 0, 1, 1, 1⟩]]
        (some ([[], []] : List (List Nat))) (none : Option (List (List Nat)))).segms =
      some ([] : List Nat) :=
  (C6_convert [[], [⟨0, 0, 1, 1, 1⟩]] (some ([[], []] : List (List Nat)))
      (none : Option (List (List Nat)))).2.2.2.2.2.2.2 [[], []] rfl (by simp)

end VisPy
